import Mathlib

/-!
Shallow embedding of the KYC verification lifecycle engine of the `cheese`
repository (NestJS/TypeScript), covering the data model (`kyc.entity.ts`),
the lifecycle operations of `KycService` (`initiateKyc`, `handleWebhook`,
`manualReview`, `retryKyc`, `updateKyc`, `isUserVerified`,
`getUserVerificationLevel`, `isKycExpired`, `getKycById`) and the webhook
signature check of `KycProviderService.verifyWebhookSignature`.

Modelling conventions:
- Timestamps (`Date`) are `Nat`; `new Date()` is an explicit `now` parameter.
- Nullable columns are `Option`; a JS falsy-check on a string field is
  modelled as "present and nonempty".
- `metadata` (a `jsonb` key-value object) is an association list
  `List (String × String)`; the JS object spread `{...a, ...b}` is
  `mergeMeta a b`, whose `lookup` semantics is "b wins on key conflicts".
- The TypeORM repository is a `List KycCase`; `findOne` with a `where`
  clause is `List.find?` on the corresponding predicate.
- Thrown Nest exceptions are `Except KycError`; `NotFoundException`,
  `ConflictException` and `BadRequestException` map to the spec's
  `NotFound`, `Conflict` and `InvalidTransition` error kinds.
- The external provider gateway and the event bus are collaborators: a
  successful `createVerification` call is an explicit `ProviderResponse`
  argument, and emitted events are returned as a `List KycEvent`.
- The HMAC-SHA256 primitive of Node's `crypto` module is an explicit
  function argument `hmac : String → String → String` (secret, message ↦
  lowercase hex digest); the engine's behaviour under test does not depend
  on the digest's internals.
-/

namespace Cheese

/-- `KycStatus` enum from `kyc.entity.ts`. -/
inductive KycStatus where
  | pending
  | inProgress
  | approved
  | rejected
  | expired
  | requiresReview
deriving DecidableEq

/-- `KycLevel` enum from `kyc.entity.ts`. -/
inductive KycLevel where
  | basic
  | intermediate
  | advanced
deriving DecidableEq

/-- Risk tier of a provider risk assessment (`'low' | 'medium' | 'high'`). -/
inductive RiskLevel where
  | low
  | medium
  | high
deriving DecidableEq

/-- `riskAssessment` jsonb column shape from `kyc.entity.ts`. -/
structure RiskAssessment where
  riskLevel : RiskLevel
  score : Nat
  flags : List String
deriving DecidableEq

/-- Metadata bag: a JS object of string keys, modelled as an association
list. -/
abbrev Meta := List (String × String)

/-- JS object spread `{...a, ...b}`: union of the two bags in which `b`
wins on key conflicts (`lookup k (mergeMeta a b) = (b.lookup k) <|> (a.lookup k)`). -/
def mergeMeta (a b : Meta) : Meta :=
  a.filter (fun kv => (b.lookup kv.1).isNone) ++ b

/-- The `KycVerification` entity (`kyc_verifications` table). `updatedAt`
is TypeORM-managed and not part of the modelled record; all stated record
equalities are therefore equalities modulo `updatedAt`. -/
structure KycCase where
  id : Nat
  userId : String
  verificationId : String
  status : KycStatus
  level : KycLevel
  verificationUrl : String
  firstName : String
  lastName : String
  email : String
  phoneNumber : Option String
  dateOfBirth : Option Nat
  country : Option String
  address : Option String
  city : Option String
  state : Option String
  postalCode : Option String
  documentType : Option String
  documentNumber : Option String
  metadata : Option Meta
  rejectionReason : Option String
  riskAssessment : Option RiskAssessment
  submittedAt : Option Nat
  completedAt : Option Nat
  expiresAt : Option Nat
  provider : String
  attemptCount : Nat
  isManualReview : Bool
  reviewedBy : Option String
  reviewNotes : Option String
  createdAt : Nat
deriving DecidableEq

/-- Error taxonomy: `NotFoundException` / `ConflictException` /
`BadRequestException` with their messages. -/
inductive KycError where
  | notFound (msg : String)
  | conflict (msg : String)
  | invalidTransition (msg : String)
deriving DecidableEq

/-- Domain events emitted on the event bus (`EventEmitter2`). -/
inductive KycEvent where
  | initiated (kycId : Nat) (userId : String) (verificationId : String)
  | statusChanged (kycId : Nat) (userId : String)
      (oldStatus newStatus : KycStatus) (verificationId : String)
  | approved (kycId : Nat) (userId : String) (level : KycLevel)
  | rejected (kycId : Nat) (userId : String) (reason : Option String)
  | manuallyReviewed (kycId : Nat) (userId : String)
      (status : KycStatus) (reviewedBy : String)
deriving DecidableEq

/-- `InitiateKycDto` from `kyc.dto.ts` (subject data of a new case). -/
structure InitiateKycDto where
  userId : String
  level : Option KycLevel
  firstName : String
  lastName : String
  email : String
  phoneNumber : Option String
  dateOfBirth : Option Nat
  country : Option String
  metadata : Option Meta
deriving DecidableEq

/-- `UpdateKycDto` from `kyc.dto.ts`: a patch of optional fields; `none`
models a field absent from the request body (hence not an own property
assigned by `Object.assign`). -/
structure UpdateKycDto where
  address : Option String
  city : Option String
  state : Option String
  postalCode : Option String
  documentType : Option String
  documentNumber : Option String
  metadata : Option Meta
deriving DecidableEq

/-- `ManualReviewDto` from `kyc.dto.ts`. -/
structure ManualReviewDto where
  status : KycStatus
  reviewNotes : String
  reviewedBy : String
deriving DecidableEq

/-- Successful `KycProviderResponse` of
`KycProviderService.createVerification`. -/
structure ProviderResponse where
  verificationId : String
  verificationUrl : String
  expiresAt : Option Nat
deriving DecidableEq

/-- Webhook payload fields consumed by `KycService.handleWebhook` (the
`data` argument). `requiresReview` models the truthiness of
`data.requiresReview`. -/
structure WebhookData where
  rejectionReason : Option String
  riskAssessment : Option RiskAssessment
  metadata : Option Meta
  requiresReview : Bool
deriving DecidableEq

/-- `KycService.isKycExpired`: expired iff `expiresAt` is set and strictly
in the past (`new Date() > kyc.expiresAt`). -/
def isKycExpired (kyc : KycCase) (now : Nat) : Bool :=
  match kyc.expiresAt with
  | none => false
  | some e => now > e

/-- The new record built and persisted by `KycService.initiateKyc` after a
successful provider call (`kycRepository.create({...})` with
`status = PENDING`, `attemptCount = 1`, `submittedAt = now`). -/
def createCase (dto : InitiateKycDto) (pr : ProviderResponse)
    (providerName : String) (newId : Nat) (now : Nat) : KycCase :=
  { id := newId
    userId := dto.userId
    verificationId := pr.verificationId
    verificationUrl := pr.verificationUrl
    status := KycStatus.pending
    level := dto.level.getD KycLevel.basic
    firstName := dto.firstName
    lastName := dto.lastName
    email := dto.email
    phoneNumber := dto.phoneNumber
    dateOfBirth := dto.dateOfBirth
    country := dto.country
    address := none
    city := none
    state := none
    postalCode := none
    documentType := none
    documentNumber := none
    metadata := dto.metadata
    rejectionReason := none
    riskAssessment := none
    submittedAt := some now
    completedAt := none
    expiresAt := pr.expiresAt
    provider := providerName
    attemptCount := 1
    isManualReview := false
    reviewedBy := none
    reviewNotes := none
    createdAt := now }

/-- `KycService.initiateKyc` over a store: the two `findOne` conflict
checks (`IN_PROGRESS` for the user; unexpired `APPROVED` for the user),
then creation and persistence of the new case and the `kyc.initiated`
event. The provider call's success is the given `pr`. Returns the new
store, the saved case and the emitted events. -/
def initiateKyc (store : List KycCase) (dto : InitiateKycDto)
    (pr : ProviderResponse) (providerName : String) (newId : Nat) (now : Nat) :
    Except KycError (List KycCase × KycCase × List KycEvent) :=
  if (store.find? (fun k =>
      k.userId == dto.userId && k.status == KycStatus.inProgress)).isSome then
    Except.error (KycError.conflict "User already has a KYC verification in progress")
  else
    match store.find? (fun k =>
        k.userId == dto.userId && k.status == KycStatus.approved) with
    | some verifiedKyc =>
      if ¬ isKycExpired verifiedKyc now then
        Except.error (KycError.conflict "User is already verified")
      else
        let kyc := createCase dto pr providerName newId now
        Except.ok (store ++ [kyc], kyc,
          [KycEvent.initiated kyc.id kyc.userId kyc.verificationId])
    | none =>
      let kyc := createCase dto pr providerName newId now
      Except.ok (store ++ [kyc], kyc,
        [KycEvent.initiated kyc.id kyc.userId kyc.verificationId])

/-- The three conditional payload-field updates of `handleWebhook`
(rejection reason: truthy-string overwrite; risk assessment: overwrite;
metadata: spread-merge into the existing bag). -/
def applyPayloadFields (kyc : KycCase) (d : WebhookData) : KycCase :=
  let k1 := match d.rejectionReason with
    | some r => if r = "" then kyc else { kyc with rejectionReason := some r }
    | none => kyc
  let k2 := match d.riskAssessment with
    | some ra => { k1 with riskAssessment := some ra }
    | none => k1
  match d.metadata with
  | some m => { k2 with metadata := some (mergeMeta (k2.metadata.getD []) m) }
  | none => k2

/-- The escalation condition of `handleWebhook`:
`data.riskAssessment?.riskLevel === 'high' || data.requiresReview`. -/
def escalates (d : WebhookData) : Bool :=
  (match d.riskAssessment with
   | some ra => ra.riskLevel == RiskLevel.high
   | none => false) || d.requiresReview

/-- The per-case transition of `KycService.handleWebhook` after the record
has been looked up: set `status`, apply payload fields, stamp
`completedAt = now` when the reported status is terminal, apply the
escalation override, and emit `kyc.status.changed` plus `kyc.approved` /
`kyc.rejected` keyed on the reported status. -/
def handleWebhookCase (kyc : KycCase) (status : KycStatus) (d : WebhookData)
    (now : Nat) : KycCase × List KycEvent :=
  let oldStatus := kyc.status
  let k1 := applyPayloadFields { kyc with status := status } d
  let k2 := if status = KycStatus.approved ∨ status = KycStatus.rejected then
      { k1 with completedAt := some now }
    else k1
  let k3 := if escalates d then
      { k2 with status := KycStatus.requiresReview, isManualReview := true }
    else k2
  let evs :=
    KycEvent.statusChanged k3.id k3.userId oldStatus status k3.verificationId ::
    (if status = KycStatus.approved then
        [KycEvent.approved k3.id k3.userId k3.level]
      else if status = KycStatus.rejected then
        [KycEvent.rejected k3.id k3.userId k3.rejectionReason]
      else [])
  (k3, evs)

/-- `KycService.manualReview` on the looked-up case: requires the
`isManualReview` flag, then sets the decision status, reviewer fields and
`completedAt`, clears the flag, and emits `kyc.manually.reviewed`. -/
def manualReviewCase (kyc : KycCase) (dto : ManualReviewDto) (now : Nat) :
    Except KycError (KycCase × List KycEvent) :=
  if ¬ kyc.isManualReview then
    Except.error (KycError.invalidTransition
      "This verification does not require manual review")
  else
    let k := { kyc with
      status := dto.status
      reviewedBy := some dto.reviewedBy
      reviewNotes := some dto.reviewNotes
      completedAt := some now
      isManualReview := false }
    Except.ok (k, [KycEvent.manuallyReviewed k.id k.userId dto.status dto.reviewedBy])

/-- `KycService.retryKyc` on the looked-up case: only `REJECTED`/`EXPIRED`
may be retried, `attemptCount >= 3` is refused, and on success the case is
re-opened against the provider's new session (`pr`). -/
def retryKycCase (kyc : KycCase) (pr : ProviderResponse) (now : Nat) :
    Except KycError KycCase :=
  if kyc.status ≠ KycStatus.rejected ∧ kyc.status ≠ KycStatus.expired then
    Except.error (KycError.invalidTransition "Can only retry rejected or expired KYC")
  else if kyc.attemptCount ≥ 3 then
    Except.error (KycError.invalidTransition "Maximum retry attempts reached")
  else
    Except.ok { kyc with
      verificationId := pr.verificationId
      verificationUrl := pr.verificationUrl
      status := KycStatus.pending
      submittedAt := some now
      attemptCount := kyc.attemptCount + 1
      expiresAt := pr.expiresAt
      completedAt := none
      rejectionReason := none }

/-- `KycService.updateKyc` on the looked-up case: refused on an approved
case, otherwise `Object.assign(kyc, dto)` — every field present on the
patch overwrites the stored field (metadata included), absent fields are
untouched. -/
def updateKycCase (kyc : KycCase) (dto : UpdateKycDto) :
    Except KycError KycCase :=
  if kyc.status = KycStatus.approved then
    Except.error (KycError.invalidTransition "Cannot update approved KYC verification")
  else
    Except.ok { kyc with
      address := dto.address.orElse (fun _ => kyc.address)
      city := dto.city.orElse (fun _ => kyc.city)
      state := dto.state.orElse (fun _ => kyc.state)
      postalCode := dto.postalCode.orElse (fun _ => kyc.postalCode)
      documentType := dto.documentType.orElse (fun _ => kyc.documentType)
      documentNumber := dto.documentNumber.orElse (fun _ => kyc.documentNumber)
      metadata := dto.metadata.orElse (fun _ => kyc.metadata) }

/-- `KycService.getKycById`: point lookup in the store. -/
def getKycById (store : List KycCase) (id : Nat) : Except KycError KycCase :=
  match store.find? (fun k => k.id == id) with
  | some k => Except.ok k
  | none => Except.error (KycError.notFound "KYC verification not found")

/-- Rank of a level in the `levels` array of `isUserVerified`
(`[BASIC, INTERMEDIATE, ADVANCED].indexOf`). -/
def levelIndex : KycLevel → Nat
  | KycLevel.basic => 0
  | KycLevel.intermediate => 1
  | KycLevel.advanced => 2

/-- `findOne({where: {userId, status: APPROVED}, order: {completedAt: DESC}})`:
among the user's approved cases, the one with the greatest `completedAt`
(`none` sorting last, earlier rows winning ties). -/
def findApprovedByUser (store : List KycCase) (userId : String) : Option KycCase :=
  match store.filter (fun k => k.userId == userId && k.status == KycStatus.approved) with
  | [] => none
  | k :: ks => some (ks.foldl
      (fun best c =>
        if (c.completedAt.map (· + 1)).getD 0 > (best.completedAt.map (· + 1)).getD 0
        then c else best) k)

/-- `KycService.isUserVerified`: latest approved case, lazily checked for
expiry, then the level-index comparison when a required level is given. -/
def isUserVerified (store : List KycCase) (userId : String)
    (requiredLevel : Option KycLevel) (now : Nat) : Bool :=
  match findApprovedByUser store userId with
  | none => false
  | some kyc =>
    if isKycExpired kyc now then false
    else match requiredLevel with
      | some req => levelIndex kyc.level ≥ levelIndex req
      | none => true

/-- `KycService.getUserVerificationLevel`: the latest approved, unexpired
case's level, else `none`. -/
def getUserVerificationLevel (store : List KycCase) (userId : String)
    (now : Nat) : Option KycLevel :=
  match findApprovedByUser store userId with
  | none => none
  | some kyc => if ¬ isKycExpired kyc now then some kyc.level else none

/-- Failures raised inside the `try` block of
`KycProviderService.verifyWebhookSignature`: `crypto.createHmac` with a
missing (`undefined`) secret throws, and `crypto.timingSafeEqual` throws
when the two buffers have different byte lengths. -/
inductive SigError where
  | missingSecret
  | bufferLengthMismatch
deriving DecidableEq

/-- The message signed by the provider:
`timestamp ? timestamp + '.' + payload : payload`. -/
def signedMessage (timestamp : Option String) (payload : String) : String :=
  match timestamp with
  | some t => t ++ "." ++ payload
  | none => payload

/-- Body of the `try` block of `verifyWebhookSignature`: compute the
expected hex HMAC digest and compare it byte-wise to the claimed signature
with `crypto.timingSafeEqual`. `hmac` is Node's
`createHmac('sha256', secret).update(msg).digest('hex')`. -/
def verifySignatureInner (hmac : String → String → String)
    (secret : Option String) (payload : String) (signature : String)
    (timestamp : Option String) : Except SigError Bool :=
  match secret with
  | none => Except.error SigError.missingSecret
  | some sec =>
    let expected := hmac sec (signedMessage timestamp payload)
    if signature.utf8ByteSize ≠ expected.utf8ByteSize then
      Except.error SigError.bufferLengthMismatch
    else
      Except.ok (signature == expected)

/-- `KycProviderService.verifyWebhookSignature`: the whole computation is
wrapped in `try { ... } catch { return false }`, so every failure of the
inner computation is swallowed and yields `false`. -/
def verifyWebhookSignature (hmac : String → String → String)
    (secret : Option String) (payload : String) (signature : String)
    (timestamp : Option String) : Bool :=
  match verifySignatureInner hmac secret payload signature timestamp with
  | Except.ok b => b
  | Except.error _ => false

/-- Cases reachable through the lifecycle engine's successful transitions,
starting from a case created by `initiateKyc`. Failed operations raise and
change nothing, so they generate no states. -/
inductive Reachable : KycCase → Prop where
  | init (dto : InitiateKycDto) (pr : ProviderResponse) (providerName : String)
      (newId : Nat) (now : Nat) :
      Reachable (createCase dto pr providerName newId now)
  | webhook (k : KycCase) (s : KycStatus) (d : WebhookData) (now : Nat) :
      Reachable k → Reachable (handleWebhookCase k s d now).1
  | review (k : KycCase) (dto : ManualReviewDto) (now : Nat)
      (out : KycCase × List KycEvent) :
      Reachable k → manualReviewCase k dto now = Except.ok out → Reachable out.1
  | retry (k : KycCase) (pr : ProviderResponse) (now : Nat) (k2 : KycCase) :
      Reachable k → retryKycCase k pr now = Except.ok k2 → Reachable k2
  | update (k : KycCase) (dto : UpdateKycDto) (k2 : KycCase) :
      Reachable k → updateKycCase k dto = Except.ok k2 → Reachable k2

/-! ### Concrete fixtures for instances and counterexamples -/

/-- Concrete subject data (`userId = "U1"`, basic level). -/
def dtoU1 : InitiateKycDto :=
  { userId := "U1", level := some KycLevel.basic, firstName := "John",
    lastName := "Doe", email := "john@example.com", phoneNumber := none,
    dateOfBirth := none, country := none, metadata := none }

/-- First provider session for `U1`. -/
def prV1 : ProviderResponse :=
  { verificationId := "v1", verificationUrl := "https://p/v1", expiresAt := none }

/-- Second provider session. -/
def prV2 : ProviderResponse :=
  { verificationId := "v2", verificationUrl := "https://p/v2", expiresAt := none }

/-- The case persisted by a first successful Initiate for `U1`. -/
def caseV1 : KycCase := createCase dtoU1 prV1 "onfido" 1 0

/-- A webhook payload with no optional fields. -/
def emptyData : WebhookData :=
  { rejectionReason := none, riskAssessment := none, metadata := none,
    requiresReview := false }

/-- A high-risk assessment, as in the repository's own test fixture. -/
def highRisk : RiskAssessment :=
  { riskLevel := RiskLevel.high, score := 85, flags := ["suspicious_document"] }

/-- A webhook payload carrying a high-risk assessment. -/
def highRiskData : WebhookData := { emptyData with riskAssessment := some highRisk }

/-- Store holding the single case of `U1`'s first Initiate, still
`PENDING`, before any webhook. -/
def storeU1Pending : List KycCase := [caseV1]

/-- The case produced by applying an approved, high-risk webhook to
`U1`'s fresh case. -/
def escalatedCase : KycCase := (handleWebhookCase caseV1 KycStatus.approved highRiskData 7).1

/-- The case produced by applying a plain approved webhook to `U1`'s
fresh case. -/
def approvedCase : KycCase := (handleWebhookCase caseV1 KycStatus.approved emptyData 3).1

/-- A rejected case on its second attempt. -/
def rejected2Case : KycCase :=
  { caseV1 with
    status := KycStatus.rejected
    attemptCount := 2
    rejectionReason := some "document unreadable"
    completedAt := some 4 }

/-- A rejected case that has used all three attempts. -/
def rejected3Case : KycCase :=
  { caseV1 with
    status := KycStatus.rejected
    attemptCount := 3
    rejectionReason := some "document unreadable"
    completedAt := some 4 }

/-- An approved case whose `expiresAt` has passed. -/
def expiredApprovedCase : KycCase :=
  { caseV1 with
    status := KycStatus.approved
    completedAt := some 3
    expiresAt := some 4 }

/-- A case carrying one metadata key. -/
def metaCase : KycCase := { caseV1 with metadata := some [("a", "1")] }

/-- An update patch carrying only a metadata bag with a fresh key. -/
def metaPatch : UpdateKycDto :=
  { address := none, city := none, state := none, postalCode := none,
    documentType := none, documentNumber := none, metadata := some [("b", "2")] }

/-- A webhook payload carrying only a metadata bag. -/
def metaData1 : WebhookData := { emptyData with metadata := some [("c", "3")] }

/-- A concrete stand-in for the external HMAC-SHA256 primitive, used only
to instantiate the collaborator parameter in concrete instances. -/
def hmacStub (sec msg : String) : String := sec ++ "." ++ msg

/-! ### Helper lemmas -/

theorem lookup_isSome_of_mem {b : Meta} {kv : String × String} (h : kv ∈ b) :
    (b.lookup kv.1).isSome := by
  induction b with
  | nil => cases h
  | cons hd tl ih =>
    obtain ⟨k, v⟩ := hd
    cases h with
    | head => simp [List.lookup]
    | tail _ hmem =>
      cases hk : kv.1 == k with
      | true => simp [List.lookup, hk]
      | false => simpa [List.lookup, hk] using ih hmem

theorem filter_lookup_self_eq_nil (b : Meta) :
    b.filter (fun kv => (b.lookup kv.1).isNone) = [] := by
  rw [List.filter_eq_nil_iff]
  intro kv hmem
  simpa [Option.isNone_iff_eq_none, ← Option.ne_none_iff_isSome] using
    lookup_isSome_of_mem hmem

/-- Spread-merging the same payload bag a second time changes nothing. -/
theorem mergeMeta_absorb (a b : Meta) : mergeMeta (mergeMeta a b) b = mergeMeta a b := by
  unfold mergeMeta
  rw [List.filter_append, List.filter_filter]
  simp [filter_lookup_self_eq_nil]

/-- Normal form of the case produced by a single webhook application. -/
theorem handleWebhookCase_fst (k : KycCase) (s : KycStatus) (d : WebhookData)
    (now : Nat) :
    (handleWebhookCase k s d now).1 =
      { k with
        status := if escalates d then KycStatus.requiresReview else s
        rejectionReason := match d.rejectionReason with
          | some r => if r = "" then k.rejectionReason else some r
          | none => k.rejectionReason
        riskAssessment := match d.riskAssessment with
          | some ra => some ra
          | none => k.riskAssessment
        metadata := match d.metadata with
          | some m => some (mergeMeta (k.metadata.getD []) m)
          | none => k.metadata
        completedAt :=
          if s = KycStatus.approved ∨ s = KycStatus.rejected then some now
          else k.completedAt
        isManualReview := if escalates d then true else k.isManualReview } := by
  unfold handleWebhookCase applyPayloadFields
  cases hr : d.rejectionReason <;> cases ha : d.riskAssessment <;>
    cases hm : d.metadata <;> cases he : escalates d <;>
    by_cases ht : (s = KycStatus.approved ∨ s = KycStatus.rejected) <;>
    simp [he, ht] <;> split <;> simp

theorem handleWebhookCase_status (k : KycCase) (s : KycStatus) (d : WebhookData)
    (now : Nat) :
    (handleWebhookCase k s d now).1.status =
      if escalates d then KycStatus.requiresReview else s := by
  rw [handleWebhookCase_fst]

theorem handleWebhookCase_completedAt (k : KycCase) (s : KycStatus)
    (d : WebhookData) (now : Nat) :
    (handleWebhookCase k s d now).1.completedAt =
      if s = KycStatus.approved ∨ s = KycStatus.rejected then some now
      else k.completedAt := by
  rw [handleWebhookCase_fst]

theorem handleWebhookCase_attemptCount (k : KycCase) (s : KycStatus)
    (d : WebhookData) (now : Nat) :
    (handleWebhookCase k s d now).1.attemptCount = k.attemptCount := by
  rw [handleWebhookCase_fst]

theorem handleWebhookCase_reviewedBy (k : KycCase) (s : KycStatus)
    (d : WebhookData) (now : Nat) :
    (handleWebhookCase k s d now).1.reviewedBy = k.reviewedBy := by
  rw [handleWebhookCase_fst]

theorem retryKycCase_ok {k k2 : KycCase} {pr : ProviderResponse} {now : Nat}
    (h : retryKycCase k pr now = Except.ok k2) :
    (k.status = KycStatus.rejected ∨ k.status = KycStatus.expired) ∧
    k.attemptCount < 3 ∧
    k2 = { k with
      verificationId := pr.verificationId
      verificationUrl := pr.verificationUrl
      status := KycStatus.pending
      submittedAt := some now
      attemptCount := k.attemptCount + 1
      expiresAt := pr.expiresAt
      completedAt := none
      rejectionReason := none } := by
  unfold retryKycCase at h
  split at h
  · cases h
  · split at h
    · cases h
    · next h1 h2 =>
      refine ⟨?_, by omega, by injection h with h; exact h.symm⟩
      by_cases hr : k.status = KycStatus.rejected
      · exact Or.inl hr
      · by_cases he : k.status = KycStatus.expired
        · exact Or.inr he
        · exact absurd ⟨hr, he⟩ h1

theorem manualReviewCase_ok {k : KycCase} {dto : ManualReviewDto} {now : Nat}
    {out : KycCase × List KycEvent}
    (h : manualReviewCase k dto now = Except.ok out) :
    k.isManualReview = true ∧
    out.1 = { k with
      status := dto.status
      reviewedBy := some dto.reviewedBy
      reviewNotes := some dto.reviewNotes
      completedAt := some now
      isManualReview := false } := by
  unfold manualReviewCase at h
  split at h
  · cases h
  · next hflag =>
    refine ⟨by simpa using hflag, ?_⟩
    injection h with h
    rw [← h]

theorem updateKycCase_ok {k k2 : KycCase} {dto : UpdateKycDto}
    (h : updateKycCase k dto = Except.ok k2) :
    k.status ≠ KycStatus.approved ∧
    k2 = { k with
      address := dto.address.orElse (fun _ => k.address)
      city := dto.city.orElse (fun _ => k.city)
      state := dto.state.orElse (fun _ => k.state)
      postalCode := dto.postalCode.orElse (fun _ => k.postalCode)
      documentType := dto.documentType.orElse (fun _ => k.documentType)
      documentNumber := dto.documentNumber.orElse (fun _ => k.documentNumber)
      metadata := dto.metadata.orElse (fun _ => k.metadata) } := by
  unfold updateKycCase at h
  split at h
  · cases h
  · next hs => exact ⟨hs, by injection h with h; exact h.symm⟩

theorem handleWebhookCase_id (k : KycCase) (s : KycStatus) (d : WebhookData)
    (now : Nat) : (handleWebhookCase k s d now).1.id = k.id := by
  rw [handleWebhookCase_fst]

theorem handleWebhookCase_userId (k : KycCase) (s : KycStatus) (d : WebhookData)
    (now : Nat) : (handleWebhookCase k s d now).1.userId = k.userId := by
  rw [handleWebhookCase_fst]

theorem handleWebhookCase_level (k : KycCase) (s : KycStatus) (d : WebhookData)
    (now : Nat) : (handleWebhookCase k s d now).1.level = k.level := by
  rw [handleWebhookCase_fst]

/-- The events emitted by a webhook application: `kyc.status.changed`
always, then `kyc.approved` / `kyc.rejected` keyed on the reported status. -/
theorem handleWebhookCase_snd (k : KycCase) (s : KycStatus) (d : WebhookData)
    (now : Nat) :
    (handleWebhookCase k s d now).2 =
      KycEvent.statusChanged (handleWebhookCase k s d now).1.id
        (handleWebhookCase k s d now).1.userId k.status s
        (handleWebhookCase k s d now).1.verificationId ::
      (if s = KycStatus.approved then
          [KycEvent.approved (handleWebhookCase k s d now).1.id
            (handleWebhookCase k s d now).1.userId
            (handleWebhookCase k s d now).1.level]
        else if s = KycStatus.rejected then
          [KycEvent.rejected (handleWebhookCase k s d now).1.id
            (handleWebhookCase k s d now).1.userId
            (handleWebhookCase k s d now).1.rejectionReason]
        else []) := rfl

theorem foldl_best_mem (ks : List KycCase) (k0 : KycCase) :
    ks.foldl
      (fun best c =>
        if (c.completedAt.map (· + 1)).getD 0 > (best.completedAt.map (· + 1)).getD 0
        then c else best) k0 ∈ k0 :: ks := by
  induction ks generalizing k0 with
  | nil => simp
  | cons hd tl ih =>
    simp only [List.foldl_cons]
    have h := ih (if (hd.completedAt.map (· + 1)).getD 0 >
        (k0.completedAt.map (· + 1)).getD 0 then hd else k0)
    rcases List.mem_cons.mp h with h1 | h1
    · rw [h1]
      split <;> simp
    · exact List.mem_cons_of_mem _ (List.mem_cons_of_mem _ h1)

theorem findApprovedByUser_spec {store : List KycCase} {userId : String}
    {k : KycCase} (h : findApprovedByUser store userId = some k) :
    k ∈ store ∧ k.userId = userId ∧ k.status = KycStatus.approved := by
  unfold findApprovedByUser at h
  split at h
  · cases h
  · next k0 ks heq =>
    injection h with h
    have hmem : k ∈ k0 :: ks := h ▸ foldl_best_mem ks k0
    rw [← heq] at hmem
    refine ⟨List.mem_of_mem_filter hmem, ?_⟩
    have hp := List.of_mem_filter hmem
    simp only [Bool.and_eq_true, beq_iff_eq] at hp
    exact hp

/-! ### Claims -/

/-- C1 (counterexample): re-applying the very same
`(externalVerificationId, status, payload)` webhook to the same case at a
later delivery time does NOT yield the same stored record: `completedAt`
is overwritten with the later time, so the claim's "completedAt is set
once" fails on the code. -/
theorem C1_counterexample :
    (handleWebhookCase (handleWebhookCase caseV1 KycStatus.approved emptyData 1).1
        KycStatus.approved emptyData 2).1 ≠
      (handleWebhookCase caseV1 KycStatus.approved emptyData 1).1 ∧
    (handleWebhookCase caseV1 KycStatus.approved emptyData 1).1.completedAt = some 1 ∧
    (handleWebhookCase (handleWebhookCase caseV1 KycStatus.approved emptyData 1).1
        KycStatus.approved emptyData 2).1.completedAt = some 2 := by
  decide

/-- C1 (amended): ApplyWebhook is idempotent only modulo `completedAt` in
addition to `updatedAt` — re-applying the same
`(externalVerificationId, status, payload)` is absorbed: the second
application yields exactly the record a single application at the second
delivery time would, so every field except `completedAt` (and the
unmodelled `updatedAt`) is unchanged, while a terminal status re-stamps
`completedAt` with each application's time instead of preserving it. -/
theorem C1_applyWebhook_absorbed (k : KycCase) (s : KycStatus) (d : WebhookData)
    (t1 t2 : Nat) :
    (handleWebhookCase (handleWebhookCase k s d t1).1 s d t2).1 =
      (handleWebhookCase k s d t2).1 := by
  rw [handleWebhookCase_fst, handleWebhookCase_fst, handleWebhookCase_fst]
  cases hr : d.rejectionReason <;> cases ha : d.riskAssessment <;>
    cases hm : d.metadata <;> cases he : escalates d <;>
    by_cases ht : (s = KycStatus.approved ∨ s = KycStatus.rejected) <;>
    simp [he, ht, mergeMeta_absorb] <;> split <;> simp_all

/-- C2: escalation precedence — any webhook whose payload carries a
high-risk assessment or an explicit `requiresReview` flag leaves the case
stored as `REQUIRES_REVIEW` with `isManualReview = true`, regardless of
the provider-reported status. -/
theorem C2_escalation_precedence (k : KycCase) (s : KycStatus) (d : WebhookData)
    (now : Nat) (h : escalates d = true) :
    (handleWebhookCase k s d now).1.status = KycStatus.requiresReview ∧
    (handleWebhookCase k s d now).1.isManualReview = true := by
  rw [handleWebhookCase_fst]
  simp [h]

/-- C2 (witness): the high-risk payload of the repository's own test
fixture, reported as Approved, is stored as RequiresReview. -/
theorem C2_witness :
    escalates highRiskData = true ∧
    (handleWebhookCase caseV1 KycStatus.approved highRiskData 5).1.status =
      KycStatus.requiresReview ∧
    (handleWebhookCase caseV1 KycStatus.approved highRiskData 5).1.isManualReview = true :=
  ⟨by decide,
   (C2_escalation_precedence caseV1 KycStatus.approved highRiskData 5 (by decide)).1,
   (C2_escalation_precedence caseV1 KycStatus.approved highRiskData 5 (by decide)).2⟩

/-- C3 (code bug): a second Initiate for `U1` issued while the first case
is still `PENDING` (no webhook applied yet) does NOT fail with a conflict:
`initiateKyc` only checks for an `IN_PROGRESS` case (contradicting its own
"pending/in-progress" comment), so the second Initiate succeeds and
persists a second case for the same user. -/
theorem C3_second_initiate_succeeds :
    caseV1.userId = "U1" ∧ caseV1.status = KycStatus.pending ∧
    initiateKyc storeU1Pending dtoU1 prV2 "onfido" 2 5 =
      Except.ok ([caseV1, createCase dtoU1 prV2 "onfido" 2 5],
        createCase dtoU1 prV2 "onfido" 2 5,
        [KycEvent.initiated 2 "U1" "v2"]) :=
  ⟨rfl, rfl, rfl⟩

/-- C4 (counterexample): a webhook reporting Approved with a high-risk
assessment is stored as `REQUIRES_REVIEW`, yet the `kyc.approved` event is
still emitted — so "approved is emitted iff the final stored status is
Approved" fails on the code, which keys the event off the reported status. -/
theorem C4_counterexample :
    (handleWebhookCase caseV1 KycStatus.approved highRiskData 5).1.status =
      KycStatus.requiresReview ∧
    KycEvent.approved 1 "U1" KycLevel.basic ∈
      (handleWebhookCase caseV1 KycStatus.approved highRiskData 5).2 := by
  decide

/-- C4 (amended): the `kyc.approved` (resp. `kyc.rejected`) event is
emitted iff the provider-REPORTED status is Approved (resp. Rejected),
regardless of the escalation override — an escalated case whose reported
status was Approved is stored as RequiresReview and still emits
`kyc.approved`. -/
theorem C4_events_follow_reported_status (k : KycCase) (s : KycStatus)
    (d : WebhookData) (now : Nat) :
    (KycEvent.approved k.id k.userId k.level ∈ (handleWebhookCase k s d now).2 ↔
      s = KycStatus.approved) ∧
    (KycEvent.rejected k.id k.userId (handleWebhookCase k s d now).1.rejectionReason ∈
        (handleWebhookCase k s d now).2 ↔
      s = KycStatus.rejected) := by
  rw [handleWebhookCase_snd, handleWebhookCase_id, handleWebhookCase_userId,
    handleWebhookCase_level]
  by_cases h1 : s = KycStatus.approved <;> by_cases h2 : s = KycStatus.rejected <;>
    simp_all

/-- C5 (counterexample): the reachable case obtained by applying an
approved, high-risk webhook to a fresh case has `completedAt` set although
its status is `REQUIRES_REVIEW` (not terminal) and it was never closed via
manual review (`reviewedBy` is unset) — refuting "completedAt is set iff
the status is terminal or the case has been closed via manual review". -/
theorem C5_counterexample :
    Reachable escalatedCase ∧
    escalatedCase.completedAt.isSome = true ∧
    escalatedCase.status = KycStatus.requiresReview ∧
    escalatedCase.reviewedBy = none := by
  refine ⟨?_, by decide, by decide, by decide⟩
  exact Reachable.webhook caseV1 KycStatus.approved highRiskData 7
    (Reachable.init dtoU1 prV1 "onfido" 1 0)

/-- C5 (amended): one direction of the invariant holds — every reachable
case whose status is terminal (Approved or Rejected) has `completedAt`
set; the converse fails because an escalated terminal webhook stamps
`completedAt` and then overrides the status to RequiresReview. -/
theorem C5_terminal_implies_completedAt (c : KycCase) (h : Reachable c) :
    (c.status = KycStatus.approved ∨ c.status = KycStatus.rejected) →
    c.completedAt.isSome = true := by
  induction h with
  | init dto pr providerName newId now =>
    intro hs
    simp [createCase] at hs
  | webhook k s d now hk ih =>
    intro hs
    rw [handleWebhookCase_status] at hs
    rw [handleWebhookCase_completedAt]
    by_cases he : escalates d
    · simp [he] at hs
    · simp [he] at hs
      simp [hs]
  | review k dto now out hk hok ih =>
    intro _
    obtain ⟨-, hout⟩ := manualReviewCase_ok hok
    rw [hout]
    rfl
  | retry k pr now k2 hk hok ih =>
    intro hs
    obtain ⟨-, -, hout⟩ := retryKycCase_ok hok
    rw [hout] at hs
    simp [KycCase.mk.injEq] at hs
  | update k dto k2 hk hok ih =>
    intro hs
    obtain ⟨-, hout⟩ := updateKycCase_ok hok
    rw [hout] at hs
    rw [hout]
    exact ih hs

/-- C5 (witness): a concrete reachable case approved by a plain webhook
has `completedAt` set. -/
theorem C5_witness : approvedCase.completedAt.isSome = true :=
  C5_terminal_implies_completedAt approvedCase
    (Reachable.webhook caseV1 KycStatus.approved emptyData 3
      (Reachable.init dtoU1 prV1 "onfido" 1 0))
    (Or.inl (by decide))

/-- C6: every reachable case has `attemptCount` between 1 and 3 — it is 1
at creation and only a successful Retry (guarded by `attemptCount < 3`)
increments it — and any Retry attempted once `attemptCount` has reached 3
fails with an `InvalidTransition` (`BadRequestException`) error, returning
no updated case. -/
theorem C6_attemptCount_bounds :
    (∀ c : KycCase, Reachable c → 1 ≤ c.attemptCount ∧ c.attemptCount ≤ 3) ∧
    (∀ (c : KycCase) (pr : ProviderResponse) (now : Nat), 3 ≤ c.attemptCount →
      ∃ msg, retryKycCase c pr now = Except.error (KycError.invalidTransition msg)) := by
  constructor
  · intro c h
    induction h with
    | init dto pr providerName newId now =>
      refine ⟨le_refl 1, ?_⟩
      show (1 : Nat) ≤ 3
      decide
    | webhook k s d now hk ih =>
      rw [handleWebhookCase_attemptCount]
      exact ih
    | review k dto now out hk hok ih =>
      obtain ⟨-, hout⟩ := manualReviewCase_ok hok
      rw [hout]
      exact ih
    | retry k pr now k2 hk hok ih =>
      obtain ⟨-, hlt, hout⟩ := retryKycCase_ok hok
      rw [hout]
      show 1 ≤ k.attemptCount + 1 ∧ k.attemptCount + 1 ≤ 3
      omega
    | update k dto k2 hk hok ih =>
      obtain ⟨-, hout⟩ := updateKycCase_ok hok
      rw [hout]
      exact ih
  · intro c pr now h3
    unfold retryKycCase
    by_cases hs : c.status ≠ KycStatus.rejected ∧ c.status ≠ KycStatus.expired
    · rw [if_pos hs]
      exact ⟨_, rfl⟩
    · rw [if_neg hs, if_pos h3]
      exact ⟨_, rfl⟩

/-- C6 (witness): a freshly created case has `attemptCount = 1 ∈ [1,3]`,
and a Retry on a rejected case with `attemptCount = 3` fails with an
`InvalidTransition` error. -/
theorem C6_witness :
    (1 ≤ caseV1.attemptCount ∧ caseV1.attemptCount ≤ 3) ∧
    ∃ msg, retryKycCase rejected3Case prV2 9 =
      Except.error (KycError.invalidTransition msg) :=
  ⟨C6_attemptCount_bounds.1 caseV1 (Reachable.init dtoU1 prV1 "onfido" 1 0),
   C6_attemptCount_bounds.2 rejected3Case prV2 9 (by decide)⟩

/-- C7: Retry on a `Pending` or `InProgress` case fails with an
`InvalidTransition` error, while Retry on a `Rejected` or `Expired` case
with `attemptCount < 3` succeeds and yields the case with status
`Pending`, `attemptCount` incremented, `rejectionReason` and `completedAt`
cleared, and fresh `verificationId`, `verificationUrl`, `submittedAt` and
`expiresAt` from the new provider session. -/
theorem C7_retry_precondition_effect :
    (∀ (c : KycCase) (pr : ProviderResponse) (now : Nat),
        (c.status = KycStatus.pending ∨ c.status = KycStatus.inProgress) →
        ∃ msg, retryKycCase c pr now = Except.error (KycError.invalidTransition msg)) ∧
    (∀ (c : KycCase) (pr : ProviderResponse) (now : Nat),
        (c.status = KycStatus.rejected ∨ c.status = KycStatus.expired) →
        c.attemptCount < 3 →
        retryKycCase c pr now = Except.ok { c with
          verificationId := pr.verificationId
          verificationUrl := pr.verificationUrl
          status := KycStatus.pending
          submittedAt := some now
          attemptCount := c.attemptCount + 1
          expiresAt := pr.expiresAt
          completedAt := none
          rejectionReason := none }) := by
  constructor
  · intro c pr now hs
    unfold retryKycCase
    have hne : c.status ≠ KycStatus.rejected ∧ c.status ≠ KycStatus.expired := by
      rcases hs with h | h <;> rw [h] <;> exact ⟨by decide, by decide⟩
    rw [if_pos hne]
    exact ⟨_, rfl⟩
  · intro c pr now hs hlt
    unfold retryKycCase
    have h1 : ¬ (c.status ≠ KycStatus.rejected ∧ c.status ≠ KycStatus.expired) := by
      rcases hs with h | h <;> simp [h]
    rw [if_neg h1, if_neg (by omega : ¬ c.attemptCount ≥ 3)]

/-- C7 (witness): Retry on the fresh Pending case fails; Retry on the
rejected second-attempt case succeeds with the specified effect. -/
theorem C7_witness :
    (∃ msg, retryKycCase caseV1 prV2 9 =
      Except.error (KycError.invalidTransition msg)) ∧
    retryKycCase rejected2Case prV2 9 = Except.ok { rejected2Case with
      verificationId := prV2.verificationId
      verificationUrl := prV2.verificationUrl
      status := KycStatus.pending
      submittedAt := some 9
      attemptCount := rejected2Case.attemptCount + 1
      expiresAt := prV2.expiresAt
      completedAt := none
      rejectionReason := none } :=
  ⟨C7_retry_precondition_effect.1 caseV1 prV2 9 (Or.inl (by decide)),
   C7_retry_precondition_effect.2 rejected2Case prV2 9 (Or.inl (by decide)) (by decide)⟩

/-- C8: expiration is lazy — when the user's most recently completed
approved case has `expiresAt` strictly in the past, the stored record
still carries status `Approved` (no operation rewrites it on the passage
of time), while `isUserVerified` returns false for every required level
and `getUserVerificationLevel` returns none. -/
theorem C8_lazy_expiration (store : List KycCase) (userId : String) (now : Nat)
    (k : KycCase) (hfind : findApprovedByUser store userId = some k)
    (hexp : isKycExpired k now = true) :
    k ∈ store ∧ k.status = KycStatus.approved ∧
    (∀ lvl : Option KycLevel, isUserVerified store userId lvl now = false) ∧
    getUserVerificationLevel store userId now = none := by
  obtain ⟨hmem, -, happ⟩ := findApprovedByUser_spec hfind
  refine ⟨hmem, happ, ?_, ?_⟩
  · intro lvl
    unfold isUserVerified
    rw [hfind]
    simp [hexp]
  · unfold getUserVerificationLevel
    rw [hfind]
    simp [hexp]

/-- C8 (witness): a store holding one approved case for `U1` whose
`expiresAt = 4` has passed at `now = 10`: the stored record (also returned
by a direct `getKycById` fetch) still has status Approved, yet
`isUserVerified` is false and `getUserVerificationLevel` is none. -/
theorem C8_witness :
    findApprovedByUser [expiredApprovedCase] "U1" = some expiredApprovedCase ∧
    isKycExpired expiredApprovedCase 10 = true ∧
    getKycById [expiredApprovedCase] 1 = Except.ok expiredApprovedCase ∧
    expiredApprovedCase.status = KycStatus.approved ∧
    isUserVerified [expiredApprovedCase] "U1" (some KycLevel.basic) 10 = false ∧
    isUserVerified [expiredApprovedCase] "U1" none 10 = false ∧
    getUserVerificationLevel [expiredApprovedCase] "U1" 10 = none := by
  have h := C8_lazy_expiration [expiredApprovedCase] "U1" 10 expiredApprovedCase
    (by decide) (by decide)
  exact ⟨by decide, by decide, rfl, h.2.1, h.2.2.1 (some KycLevel.basic),
    h.2.2.1 none, h.2.2.2⟩

/-- C9 (counterexample): with a missing webhook secret the inner
computation raises a configuration error (`crypto.createHmac` throws), but
`verifyWebhookSignature` swallows it in its catch-all and returns `false`
instead of throwing — the claim that the verifier is partial (throws) in
the configuration cases fails on the code. -/
theorem C9_counterexample :
    verifySignatureInner hmacStub none "body" "sig" none =
      Except.error SigError.missingSecret ∧
    verifyWebhookSignature hmacStub none "body" "sig" none = false :=
  ⟨rfl, rfl⟩

/-- C9 (amended): the verifier is total everywhere — any claimed signature
that differs from the expected digest (mismatched, malformed or
wrong-length ones included) yields `false` without throwing, and a
configuration error such as a missing secret is also caught and yields
`false` rather than a thrown error. -/
theorem C9_total_never_throws :
    (∀ (hmac : String → String → String) (sec payload sig : String)
        (ts : Option String), sig ≠ hmac sec (signedMessage ts payload) →
        verifyWebhookSignature hmac (some sec) payload sig ts = false) ∧
    (∀ (hmac : String → String → String) (payload sig : String)
        (ts : Option String),
        verifyWebhookSignature hmac none payload sig ts = false) := by
  constructor
  · intro hmac sec payload sig ts hne
    unfold verifyWebhookSignature verifySignatureInner
    by_cases hlen : sig.utf8ByteSize = (hmac sec (signedMessage ts payload)).utf8ByteSize
    · simp only [hlen]
      simp [hne]
    · simp [hlen]
  · intro hmac payload sig ts
    rfl

/-- C9 (witness): a wrong signature of matching shape and a missing secret
both evaluate to `false`. -/
theorem C9_witness :
    "xx.body" ≠ hmacStub "s" (signedMessage none "body") ∧
    verifyWebhookSignature hmacStub (some "s") "body" "xx.body" none = false ∧
    verifyWebhookSignature hmacStub none "body" "xx.body" none = false :=
  ⟨by decide,
   C9_total_never_throws.1 hmacStub "s" "body" "xx.body" none (by decide),
   C9_total_never_throws.2 hmacStub "body" "xx.body" none⟩

/-- C10 (counterexample): an Update whose patch carries
`metadata = {"b": "2"}` on a case storing `metadata = {"a": "1"}` replaces
the bag wholesale — key `"a"`, present before the update and absent from
the patch, is lost, whereas the claimed merge would have preserved it. -/
theorem C10_counterexample :
    updateKycCase metaCase metaPatch =
      Except.ok { metaCase with metadata := some [("b", "2")] } ∧
    List.lookup "a" [("b", "2")] = (none : Option String) ∧
    List.lookup "a" (mergeMeta [("a", "1")] [("b", "2")]) = some "1" :=
  ⟨rfl, by decide, by decide⟩

/-- C10 (amended): metadata is merged (union, payload wins on key
conflicts) only by webhook application; the plain Update operation
replaces the stored metadata wholesale with the patch's bag whenever the
patch carries one. -/
theorem C10_metadata_update_replaces_webhook_merges :
    (∀ (k : KycCase) (dto : UpdateKycDto) (m : Meta),
        k.status ≠ KycStatus.approved → dto.metadata = some m →
        ∃ k2, updateKycCase k dto = Except.ok k2 ∧ k2.metadata = some m) ∧
    (∀ (k : KycCase) (s : KycStatus) (d : WebhookData) (m : Meta) (now : Nat),
        d.metadata = some m →
        (handleWebhookCase k s d now).1.metadata =
          some (mergeMeta (k.metadata.getD []) m)) := by
  constructor
  · intro k dto m hs hm
    refine ⟨{ k with
      address := dto.address.orElse (fun _ => k.address)
      city := dto.city.orElse (fun _ => k.city)
      state := dto.state.orElse (fun _ => k.state)
      postalCode := dto.postalCode.orElse (fun _ => k.postalCode)
      documentType := dto.documentType.orElse (fun _ => k.documentType)
      documentNumber := dto.documentNumber.orElse (fun _ => k.documentNumber)
      metadata := dto.metadata.orElse (fun _ => k.metadata) }, ?_, ?_⟩
    · unfold updateKycCase
      rw [if_neg hs]
    · show (dto.metadata.orElse fun _ => k.metadata) = some m
      rw [hm]
      rfl
  · intro k s d m now hm
    rw [handleWebhookCase_fst]
    show (match d.metadata with
      | some m => some (mergeMeta (k.metadata.getD []) m)
      | none => k.metadata) = some (mergeMeta (k.metadata.getD []) m)
    rw [hm]

/-- C10 (witness): the concrete replace-on-update and merge-on-webhook
instances. -/
theorem C10_witness :
    metaCase.status ≠ KycStatus.approved ∧
    (∃ k2, updateKycCase metaCase metaPatch = Except.ok k2 ∧
      k2.metadata = some [("b", "2")]) ∧
    (handleWebhookCase metaCase KycStatus.approved metaData1 5).1.metadata =
      some (mergeMeta (metaCase.metadata.getD []) [("c", "3")]) :=
  ⟨by decide,
   C10_metadata_update_replaces_webhook_merges.1 metaCase metaPatch
     [("b", "2")] (by decide) rfl,
   C10_metadata_update_replaces_webhook_merges.2 metaCase KycStatus.approved
     metaData1 [("c", "3")] 5 rfl⟩

end Cheese
